import Mathlib

/-!
Verification of the process bootstrap and single-instance coordination
subsystem of kicad_library_manager (src/library_manager/plugin.py).

The Python module is shallowly embedded: every effectful operation of the
host platform (environment variables, filesystem probes, the wx
SingleInstanceChecker, the signal-0 liveness probe, the kipy IPC handshake)
is a field of an explicit world record, and each Python function becomes a
pure Lean function of that world.  Exceptions raised by a platform
operation are modelled by boolean availability flags (flag false means the
corresponding call raised), inner try/except blocks are folded into the
functional control flow exactly as in the source, and the outermost
try/except of the coordinator is an Except computation together with its
catch-all wrapper.  Observable side effects (file writes and removals,
lock re-acquisition, user notification) are accumulated in effect records
and event traces so that ordering claims can be stated.
-/

/-- Python string truthiness for an optional string: None and the empty
string are falsy, every other string is truthy. -/
def truthy : Option String → Bool
  | none => false
  | some s => if s = "" then false else true

/-- Python `a or b` on strings, where the empty string is falsy. -/
def pyOr (a b : String) : String := if a = "" then b else a

/-- Python str.strip on a character list: drop whitespace from both ends. -/
def pyStripList (l : List Char) : List Char :=
  ((l.dropWhile Char.isWhitespace).reverse.dropWhile Char.isWhitespace).reverse

/-- Python str.strip, the embedding used wherever the source calls .strip(). -/
def pyStrip (s : String) : String :=
  (pyStripList s.data).asString

/-- Embedding of os.path.join for one relative component (POSIX separator). -/
def ojoin (a b : String) : String := a ++ "/" ++ b

/-- The sys.platform families distinguished by the source. -/
inductive Platform
  | win32
  | darwin
  | posixOther
deriving DecidableEq, Repr

/-- Environment consulted by the cache location resolver: the override
variable, the Windows application-data variables, the expanded home
directory, and the platform family.  The two read flags model the
try/except blocks around the os.environ reads (false means the read
raised and the except branch left the value empty). -/
structure CacheEnv where
  xdgReadOk : Bool := true
  xdgCacheHome : Option String := none
  winReadOk : Bool := true
  localAppData : Option String := none
  appData : Option String := none
  home : String := "/home/user"
  platform : Platform := Platform.posixOther

/-- Embedding of plugin._cache_root_dir: XDG_CACHE_HOME (stripped) wins when
non-empty after stripping; otherwise the per-platform conventional
location under the home directory, with the Windows variables consulted
next on win32. -/
def _cache_root_dir (e : CacheEnv) : String :=
  let xdg := if e.xdgReadOk then pyStrip ((e.xdgCacheHome.getD "")) else ""
  if xdg = "" then
    match e.platform with
    | Platform.win32 =>
      let base :=
        if e.winReadOk then
          pyStrip (pyOr (e.localAppData.getD "") (e.appData.getD ""))
        else ""
      if base = "" then ojoin (ojoin e.home "AppData") "Local" else base
    | Platform.darwin => ojoin (ojoin e.home "Library") "Caches"
    | Platform.posixOther => ojoin e.home ".cache"
  else xdg

/-- Embedding of plugin._plugin_cache_dir.  The boolean argument records
whether os.makedirs raised; the exception is swallowed and the path is
returned regardless, so the argument does not influence the result. -/
def _plugin_cache_dir (e : CacheEnv) (mkdirFails : Bool) : String :=
  let _ := mkdirFails
  ojoin (_cache_root_dir e) "kicad_library_manager"

/-- Environment consulted by plugin._instance_user_key: os.getuid (the flag
is false when the call raised, as on Windows) and the USERNAME and USER
environment variables (the flag models the try/except around the reads). -/
structure UserEnv where
  getuidOk : Bool := true
  uid : Nat := 1000
  envReadOk : Bool := true
  username : Option String := none
  user : Option String := none

/-- Embedding of plugin._instance_user_key: the numeric uid when available,
else the first truthy of USERNAME and USER stripped, else the constant
string user. -/
def _instance_user_key (e : UserEnv) : String :=
  if e.getuidOk then Nat.repr e.uid
  else if e.envReadOk then
    let u := pyStrip (pyOr (e.username.getD "") (e.user.getD ""))
    if u = "" then "user" else u
  else "user"

/-- The single-instance lock name built in plugin._ensure_single_instance_or_notify. -/
def instanceLockName (e : UserEnv) : String :=
  "kicad_library_manager_single_instance_" ++ _instance_user_key e

/-- Outcome of the zero-signal probe os.kill(p, 0): success, a permission
failure, a no-such-process failure, or any other failure. -/
inductive KillResult
  | ok
  | permError
  | lookupError
  | otherError
deriving DecidableEq, Repr

/-- Platform view used by plugin._pid_is_alive: whether os.kill exists, the
outcome of the probe for each pid, and the pid of the calling process. -/
structure ProbeEnv where
  hasKill : Bool := true
  kill : Int → KillResult := fun _ => KillResult.lookupError
  selfPid : Int := 4242

/-- The argument given to plugin._pid_is_alive: either an integer, or a
value on which the int() conversion raises. -/
inductive PidInput
  | num (n : Int)
  | nonNumeric
deriving DecidableEq, Repr

/-- Embedding of plugin._pid_is_alive: unparsable and non-positive pids are
not alive; with the probe available, success and permission failures mean
alive, a no-such-process failure and every other failure mean not alive;
without the probe the function reports not alive. -/
def _pid_is_alive (env : ProbeEnv) (pid : PidInput) : Bool :=
  match pid with
  | PidInput.nonNumeric => false
  | PidInput.num p =>
    if p ≤ 0 then false
    else if env.hasKill then
      match env.kill p with
      | KillResult.ok => true
      | KillResult.permError => true
      | KillResult.lookupError => false
      | KillResult.otherError => false
    else false

/-- The JSON record written by plugin._write_pid_file.  The pid field is an
optional integer: None models a dictionary whose pid entry is missing or
is not a digit string after str() conversion. -/
structure Payload where
  pid : Option Int
  exe : String
  cwd : String
  argv : List String
  kicadApiSocket : Option String
deriving DecidableEq, Repr

/-- Content of the descriptor file ipc_plugin_pid.json: the file may be
missing, may hold text that json.loads rejects, or may hold a parsed
record. -/
inductive PidContent
  | missing
  | malformed
  | parsed (d : Payload)
deriving DecidableEq, Repr

/-- The process identity of the current launch, as reported by os.getpid,
sys.executable, os.getcwd, sys.argv and the KICAD_API_SOCKET variable. -/
structure ProcCtx where
  pid : Int := 4242
  exe : String := "/usr/bin/python3"
  cwd : String := "/work"
  argv : List String := []
  kicadApiSocket : Option String := none

/-- The record plugin._write_pid_file serializes for the current process. -/
def payloadOf (c : ProcCtx) : Payload :=
  { pid := some c.pid, exe := c.exe, cwd := c.cwd, argv := c.argv,
    kicadApiSocket := c.kicadApiSocket }

/-- Embedding of plugin._write_pid_file: overwrite the descriptor file with
the record for the current process; when the write raises (flag false) the
exception is swallowed and the file keeps its previous content. -/
def _write_pid_file (c : ProcCtx) (writeOk : Bool) (fs : PidContent) : PidContent :=
  if writeOk then PidContent.parsed (payloadOf c) else fs

/-- The read-and-parse phase of plugin._read_existing_pid (isfile, open,
read, json.loads): a missing file and a malformed payload both produce
absent. -/
def readDescriptor (fs : PidContent) : Option Payload :=
  match fs with
  | PidContent.parsed d => some d
  | _ => none

/-- Embedding of plugin._read_existing_pid: parse the descriptor file and
return its pid entry when str(pid).isdigit() holds, which for an integer
value means the value is non-negative; every failure produces absent. -/
def _read_existing_pid (fs : PidContent) : Option Int :=
  match readDescriptor fs with
  | none => none
  | some d =>
    match d.pid with
    | some n => if 0 ≤ n then some n else none
    | none => none

/-- Shared filesystem state consulted and mutated by the single-instance
coordinator: the descriptor file content and the presence of the lock
artifact. -/
structure InstFS where
  pidContent : PidContent := PidContent.missing
  lockExists : Bool := true
deriving DecidableEq, Repr

/-- World of one call to plugin._ensure_single_instance_or_notify.  Each
flag is true when the corresponding platform call returns normally and
false when it raises: the wx import, the two SingleInstanceChecker
constructions, the two IsAnotherRunning queries, the two os.remove calls,
the wx.MessageBox call and the GetApp/ExitMainLoop block.  The two
IsAnotherRunning answers are the holder detections of the first attempt
and of the retry. -/
structure InstWorld where
  fs : InstFS := {}
  probe : ProbeEnv := {}
  userEnv : UserEnv := {}
  wxImportOk : Bool := true
  ctor1Ok : Bool := true
  run1Ok : Bool := true
  anotherRunning1 : Bool := false
  removeLockOk : Bool := true
  removePidOk : Bool := true
  ctor2Ok : Bool := true
  run2Ok : Bool := true
  anotherRunning2 : Bool := false
  msgBoxOk : Bool := true
  appStuffOk : Bool := true

/-- Observable effects of one coordinator call: the resulting filesystem,
how many times the lock was re-acquired (second checker construction), how
many retry queries ran, whether the modal notification was shown, and
whether some exception was raised and caught by an inner try/except. -/
structure InstEffects where
  fs : InstFS
  reacquireAttempts : Nat := 0
  retryChecks : Nat := 0
  notified : Bool := false
  raisedInner : Bool := false
deriving DecidableEq, Repr

/-- The genuine-conflict tail of the coordinator: best-effort modal
notification, best-effort release, best-effort event-loop shutdown, then
the do-not-proceed answer.  Every step is inside its own try/except, so
this tail never raises to the outer boundary. -/
def conflictTail (w : InstWorld) (e : InstEffects) : Bool × InstEffects :=
  let e1 := if w.msgBoxOk then { e with notified := true } else { e with raisedInner := true }
  let e2 := if w.appStuffOk then e1 else { e1 with raisedInner := true }
  (false, e2)

/-- The body of plugin._ensure_single_instance_or_notify inside its
outermost try: an error value is an exception escaping to the outermost
boundary, carrying the effects performed before the raise.  The stale-lock
branch removes the lock artifact and the descriptor file (each
best-effort), re-acquires the checker once, and proceeds when the retry
reports no other holder; otherwise control falls through to the conflict
tail. -/
def ensureBody (w : InstWorld) : Except InstEffects (Bool × InstEffects) :=
  let e0 : InstEffects := { fs := w.fs }
  if !(w.wxImportOk && w.ctor1Ok && w.run1Ok) then Except.error e0
  else if w.anotherRunning1 then
    match _read_existing_pid w.fs.pidContent with
    | some p =>
      if !(_pid_is_alive w.probe (PidInput.num p)) then
        let fs1 := if w.removeLockOk then { w.fs with lockExists := false } else w.fs
        let fs2 := if w.removePidOk then { fs1 with pidContent := PidContent.missing } else fs1
        let raised0 := !(w.removeLockOk && w.removePidOk)
        if w.ctor2Ok then
          if w.run2Ok then
            let e1 : InstEffects :=
              { fs := fs2, reacquireAttempts := 1, retryChecks := 1, raisedInner := raised0 }
            if w.anotherRunning2 then Except.ok (conflictTail w e1)
            else Except.ok (true, e1)
          else
            Except.ok (conflictTail w
              { fs := fs2, reacquireAttempts := 1, retryChecks := 1, raisedInner := true })
        else
          Except.ok (conflictTail w
            { fs := fs2, reacquireAttempts := 1, raisedInner := true })
      else Except.ok (conflictTail w e0)
    | none => Except.ok (conflictTail w e0)
  else Except.ok (true, e0)

/-- Embedding of plugin._ensure_single_instance_or_notify: the body wrapped
in its outermost catch-all, which turns any escaping exception into the
fail-open proceed answer. -/
def _ensure_single_instance_or_notify (w : InstWorld) : Bool × InstEffects :=
  match ensureBody w with
  | Except.ok r => r
  | Except.error e => (true, e)

/-- Whether some exception was raised during the coordinator call, caught
either by an inner try/except or by the outermost boundary. -/
def instRaised (w : InstWorld) : Bool :=
  match ensureBody w with
  | Except.ok (_, e) => e.raisedInner
  | Except.error _ => true

/-- Modelled from the spec: find_repo_root_from_project lives in
library_manager.repo, which is not among the provided source files.  Per
section 4.6 step 1, it derives a candidate from the host-reported project
path (its containing directory if the path is a file, or itself if a
directory) and validates the candidate against the sentinel predicate,
returning the candidate on success and absent otherwise. -/
def find_repo_root_from_project (isFile : String → Bool) (isDir : String → Bool)
    (dirname : String → String) (isRepoRoot : String → Bool) (sp : String) : Option String :=
  if isFile sp then (if isRepoRoot (dirname sp) then some (dirname sp) else none)
  else if isDir sp then (if isRepoRoot sp then some sp else none)
  else none

/-- Events observable during plugin.main, in execution order.  Boot-log
lines carry no decision content and are omitted. -/
inductive MEvent
  | importWxFail
  | importKipyFail
  | importModulesFail
  | appCreated
  | singleCheck (ok : Bool)
  | writePid
  | ipcError
  | noBoardWarn
  | cfgSaved
  | uiOpened
  | mainLoopDone
deriving DecidableEq, Repr

/-- World of one run of plugin.main.  The import flags model the three
guarded import groups; ipcOk models the kipy handshake block raising
nowhere (KiCad construction, get_board, get_project); boardPresent is
get_board returning a board rather than None.  projectPath and boardName
are the host-reported strings with the empty string standing for None.
The filesystem predicates, dirname, the sentinel predicate isRepoRoot and
the discovery helper findAuto are the external collaborators consulted by
main; cfgRepoPath is the persisted configuration value (empty string for
unset), cfgTry1Ok models the try around the configured-path lookup and
persistOk the try around the persist-back block. -/
structure MainWorld where
  inst : InstWorld := {}
  wxOk : Bool := true
  kipyOk : Bool := true
  modulesOk : Bool := true
  ipcOk : Bool := true
  boardPresent : Bool := true
  projectPath : String := ""
  boardName : String := ""
  spOk : Bool := true
  isFile : String → Bool := fun _ => false
  isDir : String → Bool := fun _ => false
  dirname : String → String := fun _ => ""
  cwd : String := "/"
  hereOk : Bool := true
  pluginDir : String := ""
  isRepoRoot : String → Bool := fun _ => false
  findAuto : List String → Option String := fun _ => none
  cfgTry1Ok : Bool := true
  cfgRepoPath : String := ""
  persistOk : Bool := true

/-- The start path main derives from the host: project.path, else
board.name, else the empty string. -/
def mainStartPath (w : MainWorld) : String := pyOr w.projectPath w.boardName

/-- The plugin installation directory hint, empty when the abspath/dirname
block raised. -/
def mainHere (w : MainWorld) : String := if w.hereOk then w.pluginDir else ""

/-- The result of the find_repo_root_from_project call made by main. -/
def mainFromProject (w : MainWorld) : Option String :=
  find_repo_root_from_project w.isFile w.isDir w.dirname w.isRepoRoot (mainStartPath w)

/-- Whether the configured-path branch of main fires: the configuration
loads, its repo_path is truthy and the sentinel predicate accepts it. -/
def mainCfgHit (w : MainWorld) : Bool :=
  w.cfgTry1Ok && (if w.cfgRepoPath = "" then false else true) && w.isRepoRoot w.cfgRepoPath

/-- The project directory main derives from the start path: the containing
directory when the start path names a file, the path itself when it names
a directory, empty otherwise or when the block raised. -/
def mainProjectDir (w : MainWorld) : String :=
  if w.spOk then
    if mainStartPath w ≠ "" && w.isFile (mainStartPath w) then w.dirname (mainStartPath w)
    else if mainStartPath w ≠ "" && w.isDir (mainStartPath w) then mainStartPath w
    else ""
  else ""

/-- The repository path after the first two precedence steps: the
host-derived candidate when truthy, else the validated configured path,
else the (falsy) host-derived result. -/
def mainRp1 (w : MainWorld) : Option String :=
  if truthy (mainFromProject w) then mainFromProject w
  else if mainCfgHit w then some w.cfgRepoPath
  else mainFromProject w

/-- The repository path after all three precedence steps: the heuristic
scan over the hints, in their call order, fills in when the first two
steps produced nothing truthy. -/
def mainResolved (w : MainWorld) : Option String :=
  if truthy (mainRp1 w) then mainRp1 w
  else w.findAuto [mainStartPath w, w.cwd, mainHere w]

/-- Whether the persist-back block saves the discovered path: a truthy
resolution, a configuration block that does not raise, and a previously
empty (after stripping) configured value. -/
def mainDoSave (w : MainWorld) : Bool :=
  truthy (mainResolved w) && w.persistOk &&
    (if pyStrip w.cfgRepoPath = "" then true else false)

/-- Result of one run of plugin.main: the process exit code, the event
trace, the repository path and project directory handed to the UI entry
point, the value persisted into the configuration (absent when no save
happened) and the configuration value after the run. -/
structure MainOut where
  code : Nat
  trace : List MEvent
  repoPath : String := ""
  projectDir : String := ""
  savedCfg : Option String := none
  cfgAfter : String := ""

/-- Embedding of plugin.main: guarded imports with exit code 2, wx.App
construction, the single-instance check with graceful exit code 0 for the
losing launch, the descriptor write, the IPC handshake with exit code 1
on failure or on a missing board, the precedence-ordered working-directory
resolution, the conditional persist-back, and the UI handoff (setup mode
with the empty path when nothing resolved) ending with exit code 0. -/
def pluginMain (w : MainWorld) : MainOut :=
  if !w.wxOk then
    { code := 2, trace := [MEvent.importWxFail], cfgAfter := w.cfgRepoPath }
  else if !w.kipyOk then
    { code := 2, trace := [MEvent.importKipyFail], cfgAfter := w.cfgRepoPath }
  else if !w.modulesOk then
    { code := 2, trace := [MEvent.importModulesFail], cfgAfter := w.cfgRepoPath }
  else if !(_ensure_single_instance_or_notify w.inst).1 then
    { code := 0, trace := [MEvent.appCreated, MEvent.singleCheck false],
      cfgAfter := w.cfgRepoPath }
  else
    let t0 : List MEvent := [MEvent.appCreated, MEvent.singleCheck true, MEvent.writePid]
    if !w.ipcOk then
      { code := 1, trace := t0 ++ [MEvent.ipcError], cfgAfter := w.cfgRepoPath }
    else if !w.boardPresent then
      { code := 1, trace := t0 ++ [MEvent.noBoardWarn], cfgAfter := w.cfgRepoPath }
    else
      { code := 0,
        trace := t0 ++ (if mainDoSave w then [MEvent.cfgSaved] else []) ++
          [MEvent.uiOpened, MEvent.mainLoopDone],
        repoPath := if truthy (mainResolved w) then (mainResolved w).getD "" else "",
        projectDir := mainProjectDir w,
        savedCfg := if mainDoSave w then some ((mainResolved w).getD "") else none,
        cfgAfter := if mainDoSave w then (mainResolved w).getD "" else w.cfgRepoPath }

/-- Descriptor payload naming a dead process, used to exercise stale-lock
recovery on a concrete input. -/
def stalePayload : Payload :=
  { pid := some 999999, exe := "/usr/bin/python3", cwd := "/work", argv := [],
    kicadApiSocket := none }

/-- Coordinator world with a held lock, a descriptor naming a dead process
and a clean retry: the stale-lock recovery scenario. -/
def staleWorld : InstWorld :=
  { fs := { pidContent := PidContent.parsed stalePayload, lockExists := true },
    anotherRunning1 := true, anotherRunning2 := false }

/-- Coordinator world where another holder is detected, no descriptor
exists and the notification dialog raises. -/
def msgBoxRaiseWorld : InstWorld :=
  { anotherRunning1 := true, msgBoxOk := false }

/-- Coordinator world where the wx import raises at the outer boundary. -/
def wxFailWorld : InstWorld :=
  { wxImportOk := false }

/-- Descriptor payload naming a live process. -/
def livePayload : Payload :=
  { pid := some 7, exe := "/usr/bin/python3", cwd := "/work", argv := [],
    kicadApiSocket := none }

/-- Coordinator world with a held lock whose descriptor names a live
process: the genuine-conflict scenario. -/
def liveConflictWorld : InstWorld :=
  { fs := { pidContent := PidContent.parsed livePayload, lockExists := true },
    probe := { kill := fun _ => KillResult.ok },
    anotherRunning1 := true }

/-- Main world whose single-instance check loses to a live holder. -/
def losingMainWorld : MainWorld :=
  { inst := liveConflictWorld }

/-- Liveness prober environment with one live permission-protected pid, one
pid failing with an unclassified error, and everything else absent. -/
def probeEnvW : ProbeEnv :=
  { hasKill := true,
    kill := fun p =>
      if p = 4242 then KillResult.ok
      else if p = 7 then KillResult.permError
      else if p = 8 then KillResult.otherError
      else KillResult.lookupError,
    selfPid := 4242 }

/-- Main world where the host-reported project file sits inside a valid
repository root while a different valid configured path also exists. -/
def hostWinsWorld : MainWorld :=
  { projectPath := "/proj/x.kicad_pro",
    isFile := fun s => s = "/proj/x.kicad_pro",
    dirname := fun _ => "/proj",
    isRepoRoot := fun s => (s = "/proj" || s = "/cfgrepo"),
    cfgRepoPath := "/cfgrepo" }

/-- Main world with a non-empty configured repository path and no
host-reported candidate. -/
def cfgKeepWorld : MainWorld :=
  { isRepoRoot := fun s => s = "/cfgrepo", cfgRepoPath := "/cfgrepo" }

/-- Cache environment whose override variable holds a whitespace-only,
hence non-empty, value. -/
def wsXdgEnv : CacheEnv :=
  { xdgCacheHome := some " ", home := "/home/u" }

/-- Cache environment with a usable override value. -/
def setXdgEnv : CacheEnv :=
  { xdgCacheHome := some "/xdg", home := "/home/u", platform := Platform.win32 }

/-- Cache environment with no overrides on a Linux-family platform. -/
def linuxEnv : CacheEnv :=
  { xdgCacheHome := none, home := "/home/u", platform := Platform.posixOther }

/-- Process identity used to exercise the descriptor round-trip. -/
def procW : ProcCtx :=
  { pid := 1234, exe := "/opt/python", cwd := "/tmp/wd", argv := ["plugin.py"],
    kicadApiSocket := some "ipc:socket" }

/-- User environment where os.getuid raises and neither USERNAME nor USER
is set. -/
def bareUserEnv : UserEnv :=
  { getuidOk := false, envReadOk := true, username := none, user := none }

/-- A world with every platform call succeeding and no other instance. -/
def happyMainWorld : MainWorld := {}

/-- A world with every platform call succeeding, no other instance and no
working-directory candidate anywhere: the setup-mode scenario. -/
def setupModeWorld : MainWorld := {}

/-- A main world whose single-instance check loses, for exit-code checks. -/
def conflictExitWorld : MainWorld :=
  { inst := { fs := { pidContent := PidContent.parsed livePayload, lockExists := true },
              probe := { kill := fun _ => KillResult.ok },
              anotherRunning1 := true } }

/-- A main world that discovers a directory heuristically while the
configured value is empty, so the persist-back block saves it. -/
def persistMainWorld : MainWorld := { findAuto := fun _ => some "/a" }

/-- A main world with a non-empty configured value that must survive. -/
def keepMainWorld : MainWorld := { cfgRepoPath := "/keep" }

/-- Fuel-indexed digit accumulation never empties a non-empty accumulator. -/
theorem toDigitsCore_ne_nil_of_ne_nil (b f n : Nat) (ds : List Char) (h : ds ≠ []) :
    Nat.toDigitsCore b f n ds ≠ [] := by
  induction f generalizing n ds with
  | zero => simpa [Nat.toDigitsCore]
  | succ f ih =>
    simp only [Nat.toDigitsCore]
    split
    · exact List.cons_ne_nil _ _
    · exact ih _ _ (List.cons_ne_nil _ _)

/-- The decimal rendering of a natural number is never the empty string. -/
theorem repr_ne_empty (n : Nat) : Nat.repr n ≠ "" := by
  have h : Nat.toDigits 10 n ≠ [] := by
    simp only [Nat.toDigits, Nat.toDigitsCore]
    split
    · exact List.cons_ne_nil _ _
    · exact toDigitsCore_ne_nil_of_ne_nil _ _ _ _ (List.cons_ne_nil _ _)
  simp only [Nat.repr]
  intro hc
  apply h
  have hd := congrArg String.data hc
  simpa [List.asString] using hd

/-- C4: _pid_is_alive is false for non-positive and unparsable pids
(including 0, -1 and non-numeric input); with the zero-signal probe
available, a permission failure means alive, a no-such-process failure
means not alive, any other probe failure means not alive, and the probe
succeeding on the own pid of the calling process means alive. -/
theorem claim_C4_pid_liveness (env : ProbeEnv) (p : Int) :
    _pid_is_alive env (PidInput.num 0) = false
    ∧ _pid_is_alive env (PidInput.num (-1)) = false
    ∧ _pid_is_alive env PidInput.nonNumeric = false
    ∧ (p ≤ 0 → _pid_is_alive env (PidInput.num p) = false)
    ∧ (0 < p → env.hasKill = true → env.kill p = KillResult.permError →
        _pid_is_alive env (PidInput.num p) = true)
    ∧ (0 < p → env.hasKill = true → env.kill p = KillResult.lookupError →
        _pid_is_alive env (PidInput.num p) = false)
    ∧ (0 < p → env.hasKill = true → env.kill p = KillResult.otherError →
        _pid_is_alive env (PidInput.num p) = false)
    ∧ (0 < env.selfPid → env.hasKill = true → env.kill env.selfPid = KillResult.ok →
        _pid_is_alive env (PidInput.num env.selfPid) = true) := by
  refine ⟨by norm_num [_pid_is_alive], by norm_num [_pid_is_alive], rfl, ?_, ?_, ?_, ?_, ?_⟩
  · intro h
    simp [_pid_is_alive, h]
  · intro h1 h2 h3
    simp [_pid_is_alive, not_le.mpr h1, h2, h3]
  · intro h1 h2 h3
    simp [_pid_is_alive, not_le.mpr h1, h2, h3]
  · intro h1 h2 h3
    simp [_pid_is_alive, not_le.mpr h1, h2, h3]
  · intro h1 h2 h3
    simp [_pid_is_alive, not_le.mpr h1, h2, h3]

/-- C4 witness: the policy evaluated on one concrete prober environment. -/
theorem claim_C4_pid_liveness_witness :
    _pid_is_alive probeEnvW (PidInput.num 0) = false
    ∧ _pid_is_alive probeEnvW (PidInput.num 7) = true
    ∧ _pid_is_alive probeEnvW (PidInput.num 9) = false
    ∧ _pid_is_alive probeEnvW (PidInput.num 8) = false
    ∧ _pid_is_alive probeEnvW (PidInput.num 4242) = true :=
  ⟨(claim_C4_pid_liveness probeEnvW 0).1,
   (claim_C4_pid_liveness probeEnvW 7).2.2.2.2.1 (by decide) rfl (by decide),
   (claim_C4_pid_liveness probeEnvW 9).2.2.2.2.2.1 (by decide) rfl (by decide),
   (claim_C4_pid_liveness probeEnvW 8).2.2.2.2.2.2.1 (by decide) rfl (by decide),
   (claim_C4_pid_liveness probeEnvW 4242).2.2.2.2.2.2.2 (by decide) rfl (by decide)⟩

/-- C10: _instance_user_key always produces a non-empty key, in particular
the constant fallback when the uid is unavailable and neither USERNAME nor
USER is set, so the single-instance lock name is well formed; the key is a
pure function of the environment, hence identical across launches that see
the same environment. -/
theorem claim_C10_user_key_total (e : UserEnv) :
    _instance_user_key e ≠ ""
    ∧ instanceLockName e ≠ ""
    ∧ (e.getuidOk = false → e.username = none → e.user = none →
        _instance_user_key e = "user") := by
  have hkey : _instance_user_key e ≠ "" := by
    unfold _instance_user_key
    by_cases hg : e.getuidOk
    · simpa [hg] using repr_ne_empty e.uid
    · by_cases he : e.envReadOk
      · by_cases hu : pyStrip (pyOr (e.username.getD "") (e.user.getD "")) = ""
        · simp [hg, he, hu]
        · simp [hg, he, hu]
      · simp [hg, he]
  refine ⟨hkey, ?_, ?_⟩
  · unfold instanceLockName
    intro hc
    have hd := congrArg String.data hc
    rw [String.data_append] at hd
    have hnil : ("kicad_library_manager_single_instance_" : String).data = [] :=
      (List.append_eq_nil.mp hd).1
    exact absurd hnil (by decide)
  · intro hg hn hu
    unfold _instance_user_key
    by_cases he : e.envReadOk
    · have hz : pyStrip (pyOr "" "") = "" := by decide
      simp [hg, he, hn, hu, hz]
    · simp [hg, he]

/-- C10 witness: the fallback key on the bare environment. -/
theorem claim_C10_user_key_total_witness :
    _instance_user_key bareUserEnv = "user" ∧ _instance_user_key bareUserEnv ≠ "" :=
  ⟨(claim_C10_user_key_total bareUserEnv).2.2 rfl rfl rfl,
   (claim_C10_user_key_total bareUserEnv).1⟩

/-- C9: writing the Process Descriptor and reading the file back yields the
very record that was written, whose process id, executable path and
working directory are those of the writing process, and the pid reader
recovers the written process id. -/
theorem claim_C9_descriptor_roundtrip (c : ProcCtx) (fs : PidContent) (h : 0 ≤ c.pid) :
    readDescriptor (_write_pid_file c true fs) = some (payloadOf c)
    ∧ (payloadOf c).pid = some c.pid
    ∧ (payloadOf c).exe = c.exe
    ∧ (payloadOf c).cwd = c.cwd
    ∧ _read_existing_pid (_write_pid_file c true fs) = some c.pid := by
  refine ⟨rfl, rfl, rfl, rfl, ?_⟩
  simp [_read_existing_pid, _write_pid_file, readDescriptor, payloadOf, h]

/-- C9 witness: the round trip on a concrete process identity. -/
theorem claim_C9_descriptor_roundtrip_witness :
    readDescriptor (_write_pid_file procW true PidContent.missing) = some (payloadOf procW)
    ∧ _read_existing_pid (_write_pid_file procW true PidContent.missing) = some 1234 :=
  ⟨(claim_C9_descriptor_roundtrip procW PidContent.missing (by decide)).1,
   (claim_C9_descriptor_roundtrip procW PidContent.missing (by decide)).2.2.2.2⟩

/-- C8 counterexample: with XDG_CACHE_HOME set to a whitespace-only value,
which is a non-empty string, the override does not take precedence: the
resolver strips it to nothing and falls back to the home cache location. -/
theorem claim_C8_cache_counterexample :
    wsXdgEnv.xdgCacheHome = some " "
    ∧ (" " : String) ≠ ""
    ∧ _cache_root_dir wsXdgEnv = "/home/u/.cache"
    ∧ _plugin_cache_dir wsXdgEnv false = "/home/u/.cache/kicad_library_manager" :=
  ⟨rfl, by decide, by decide, by decide⟩

/-- C8 (amended): the cache directory is a pure function of environment and
platform and does not depend on whether directory creation fails, so
repeated calls return the same path and the path is returned even when
creation fails; the override variable takes precedence on every platform
when it is non-empty after stripping whitespace, with the stripped value
used; and with no override on a Linux-family platform the cache directory
is the hidden cache subpath of the home directory. -/
theorem claim_C8_cache_resolver (e : CacheEnv) (f1 f2 : Bool) :
    _plugin_cache_dir e f1 = _plugin_cache_dir e f2
    ∧ (e.xdgReadOk = true → pyStrip (e.xdgCacheHome.getD "") ≠ "" →
        _cache_root_dir e = pyStrip (e.xdgCacheHome.getD ""))
    ∧ (e.platform = Platform.posixOther → e.xdgCacheHome = none →
        _plugin_cache_dir e f1 = e.home ++ "/.cache/kicad_library_manager") := by
  refine ⟨rfl, ?_, ?_⟩
  · intro hr hne
    unfold _cache_root_dir
    simp [hr, hne]
  · intro hp hx
    have hz : pyStrip "" = "" := by decide
    have hdecomp : ("/.cache/kicad_library_manager" : String).data
        = ("/" : String).data ++ ((".cache" : String).data
          ++ (("/" : String).data ++ ("kicad_library_manager" : String).data)) := by
      decide
    apply String.ext
    simp [_plugin_cache_dir, _cache_root_dir, hp, hx, hz, ojoin, String.data_append,
      hdecomp, List.append_assoc]

/-- C8 witness: the amended resolver properties on concrete environments. -/
theorem claim_C8_cache_resolver_witness :
    _cache_root_dir setXdgEnv = "/xdg"
    ∧ _plugin_cache_dir linuxEnv true = "/home/u/.cache/kicad_library_manager"
    ∧ _plugin_cache_dir linuxEnv true = _plugin_cache_dir linuxEnv false := by
  refine ⟨?_, ?_, (claim_C8_cache_resolver linuxEnv true false).1⟩
  · have h := (claim_C8_cache_resolver setXdgEnv true false).2.1 rfl (by decide)
    rw [h]
    decide
  · have h := (claim_C8_cache_resolver linuxEnv true false).2.2 rfl rfl
    rw [h]
    decide

/-- C3 counterexample: with another holder detected, no descriptor evidence
and a notification dialog that raises, an exception is raised inside the
body of _ensure_single_instance_or_notify and yet the function returns
False, refuting the claim that any exception forces the True result. -/
theorem claim_C3_counterexample :
    instRaised msgBoxRaiseWorld = true
    ∧ (_ensure_single_instance_or_notify msgBoxRaiseWorld).1 = false :=
  ⟨by decide, by decide⟩

/-- C3 (amended): _ensure_single_instance_or_notify never propagates an
exception: any exception not handled by an inner handler reaches the
outermost boundary, is caught there, and the function returns True
(fail-open) with the effects performed so far; exceptions consumed by
inner handlers, however, can still end in the do-not-proceed result. -/
theorem claim_C3_fail_open (w : InstWorld) (e : InstEffects)
    (h : ensureBody w = Except.error e) :
    _ensure_single_instance_or_notify w = (true, e) := by
  unfold _ensure_single_instance_or_notify
  rw [h]

/-- C3 witness: the wx import failing at the outer boundary yields True. -/
theorem claim_C3_fail_open_witness :
    ensureBody wxFailWorld = Except.error { fs := wxFailWorld.fs }
    ∧ _ensure_single_instance_or_notify wxFailWorld = (true, { fs := wxFailWorld.fs }) :=
  ⟨rfl, claim_C3_fail_open wxFailWorld { fs := wxFailWorld.fs } rfl⟩

/-- C2: when another holder is detected and the descriptor names a process
the prober reports dead, the coordinator deletes the lock artifact and the
descriptor file, re-acquires the checker exactly once and queries it
exactly once, proceeding exactly when the retry finds no other holder;
when the descriptor yields no process id, control falls through to the
conflict path and the answer is do-not-proceed. -/
theorem claim_C2_stale_lock_recovery (w : InstWorld) (p : Int)
    (hwx : w.wxImportOk = true) (hc1 : w.ctor1Ok = true) (hr1 : w.run1Ok = true)
    (ha : w.anotherRunning1 = true) :
    ((_read_existing_pid w.fs.pidContent = some p →
      _pid_is_alive w.probe (PidInput.num p) = false →
      w.removeLockOk = true → w.removePidOk = true →
      w.ctor2Ok = true → w.run2Ok = true →
      ((_ensure_single_instance_or_notify w).2.fs.lockExists = false
       ∧ (_ensure_single_instance_or_notify w).2.fs.pidContent = PidContent.missing
       ∧ (_ensure_single_instance_or_notify w).2.reacquireAttempts = 1
       ∧ (_ensure_single_instance_or_notify w).2.retryChecks = 1
       ∧ (w.anotherRunning2 = false → (_ensure_single_instance_or_notify w).1 = true)
       ∧ (w.anotherRunning2 = true → (_ensure_single_instance_or_notify w).1 = false))))
    ∧ (_read_existing_pid w.fs.pidContent = none →
        (_ensure_single_instance_or_notify w).1 = false) := by
  constructor
  · intro hread halive hrl hrp hc2 hr2
    cases h2 : w.anotherRunning2 <;> cases hmb : w.msgBoxOk <;> cases has : w.appStuffOk <;>
      simp [_ensure_single_instance_or_notify, ensureBody, conflictTail,
        hwx, hc1, hr1, ha, hread, halive, hrl, hrp, hc2, hr2, h2, hmb, has]
  · intro hread
    cases hmb : w.msgBoxOk <;> cases has : w.appStuffOk <;>
      simp [_ensure_single_instance_or_notify, ensureBody, conflictTail,
        hwx, hc1, hr1, ha, hread, hmb, has]

/-- C2 witness: recovery on a concrete stale world with a dead pid. -/
theorem claim_C2_stale_lock_recovery_witness :
    (_ensure_single_instance_or_notify staleWorld).2.fs.lockExists = false
    ∧ (_ensure_single_instance_or_notify staleWorld).2.fs.pidContent = PidContent.missing
    ∧ (_ensure_single_instance_or_notify staleWorld).2.reacquireAttempts = 1
    ∧ (_ensure_single_instance_or_notify staleWorld).1 = true := by
  have h := (claim_C2_stale_lock_recovery staleWorld 999999 rfl rfl rfl rfl).1
    (by decide) (by decide) rfl rfl rfl rfl
  exact ⟨h.1, h.2.1, h.2.2.1, h.2.2.2.2.1 rfl⟩

/-- C1: the Process Descriptor write happens only after the single-instance
check reports proceed: whenever the check fails, main exits with code 0
and no descriptor write occurs; and every trace containing the descriptor
write places it strictly after the successful check event. -/
theorem claim_C1_descriptor_after_check (w : MainWorld) :
    (w.wxOk = true → w.kipyOk = true → w.modulesOk = true →
      (_ensure_single_instance_or_notify w.inst).1 = false →
      ((pluginMain w).code = 0 ∧ MEvent.writePid ∉ (pluginMain w).trace))
    ∧ (MEvent.writePid ∈ (pluginMain w).trace →
        ∃ l1 l2, (pluginMain w).trace = l1 ++ MEvent.singleCheck true :: l2
          ∧ MEvent.writePid ∉ l1 ∧ MEvent.writePid ∈ l2) := by
  constructor
  · intro h1 h2 h3 h4
    simp [pluginMain, h1, h2, h3, h4]
  · intro hmem
    cases h1 : w.wxOk with
    | false => simp [pluginMain, h1] at hmem
    | true =>
      cases h2 : w.kipyOk with
      | false => simp [pluginMain, h1, h2] at hmem
      | true =>
        cases h3 : w.modulesOk with
        | false => simp [pluginMain, h1, h2, h3] at hmem
        | true =>
          cases h4 : (_ensure_single_instance_or_notify w.inst).1 with
          | false => simp [pluginMain, h1, h2, h3, h4] at hmem
          | true =>
            cases h5 : w.ipcOk with
            | false =>
              refine ⟨[MEvent.appCreated], [MEvent.writePid, MEvent.ipcError], ?_,
                by decide, by simp⟩
              simp [pluginMain, h1, h2, h3, h4, h5]
            | true =>
              cases h6 : w.boardPresent with
              | false =>
                refine ⟨[MEvent.appCreated], [MEvent.writePid, MEvent.noBoardWarn], ?_,
                  by decide, by simp⟩
                simp [pluginMain, h1, h2, h3, h4, h5, h6]
              | true =>
                refine ⟨[MEvent.appCreated],
                  MEvent.writePid :: ((if mainDoSave w then [MEvent.cfgSaved] else []) ++
                    [MEvent.uiOpened, MEvent.mainLoopDone]), ?_, by decide, by simp⟩
                simp [pluginMain, h1, h2, h3, h4, h5, h6]

/-- C1 witness: the losing launch exits 0 without a descriptor write, and a
winning launch writes the descriptor after the successful check event. -/
theorem claim_C1_descriptor_after_check_witness :
    ((pluginMain losingMainWorld).code = 0
      ∧ MEvent.writePid ∉ (pluginMain losingMainWorld).trace)
    ∧ (∃ l1 l2, (pluginMain happyMainWorld).trace = l1 ++ MEvent.singleCheck true :: l2
        ∧ MEvent.writePid ∉ l1 ∧ MEvent.writePid ∈ l2) :=
  ⟨(claim_C1_descriptor_after_check losingMainWorld).1 rfl rfl rfl (by decide),
   (claim_C1_descriptor_after_check happyMainWorld).2 (by decide)⟩

/-- C5: working-directory resolution follows strict precedence: a truthy
host-derived candidate wins outright; otherwise a configured path that
loads, is truthy and passes the sentinel predicate wins; otherwise the
heuristic scan over the hints, in their call order, decides; and when
nothing resolves, main keeps exit code 0 and opens the UI with the empty
path. -/
theorem claim_C5_workdir_precedence (w : MainWorld)
    (h1 : w.wxOk = true) (h2 : w.kipyOk = true) (h3 : w.modulesOk = true)
    (h4 : (_ensure_single_instance_or_notify w.inst).1 = true)
    (h5 : w.ipcOk = true) (h6 : w.boardPresent = true) :
    (truthy (mainFromProject w) = true →
      (pluginMain w).repoPath = (mainFromProject w).getD "")
    ∧ (truthy (mainFromProject w) = false → mainCfgHit w = true →
      (pluginMain w).repoPath = w.cfgRepoPath)
    ∧ (truthy (mainFromProject w) = false → mainCfgHit w = false →
      truthy (w.findAuto [mainStartPath w, w.cwd, mainHere w]) = true →
      (pluginMain w).repoPath = (w.findAuto [mainStartPath w, w.cwd, mainHere w]).getD "")
    ∧ (truthy (mainResolved w) = false →
      (pluginMain w).repoPath = "" ∧ (pluginMain w).code = 0
        ∧ MEvent.uiOpened ∈ (pluginMain w).trace) := by
  refine ⟨?_, ?_, ?_, ?_⟩
  · intro hfp
    simp [pluginMain, h1, h2, h3, h4, h5, h6, mainResolved, mainRp1, hfp]
  · intro hfp hcfg
    have hne : w.cfgRepoPath ≠ "" := by
      intro hc
      rw [mainCfgHit, hc] at hcfg
      simp at hcfg
    have htr : truthy (some w.cfgRepoPath) = true := by simp [truthy, hne]
    simp [pluginMain, h1, h2, h3, h4, h5, h6, mainResolved, mainRp1, hfp, hcfg, htr]
  · intro hfp hcfg hauto
    simp [pluginMain, h1, h2, h3, h4, h5, h6, mainResolved, mainRp1, hfp, hcfg, hauto]
  · intro hres
    simp [pluginMain, h1, h2, h3, h4, h5, h6, hres]

/-- C5 witness: the host-derived candidate beating a valid configured path,
the configured path chosen without a host candidate, and setup mode. -/
theorem claim_C5_workdir_precedence_witness :
    (pluginMain hostWinsWorld).repoPath = "/proj"
    ∧ (pluginMain cfgKeepWorld).repoPath = "/cfgrepo"
    ∧ ((pluginMain setupModeWorld).repoPath = "" ∧ (pluginMain setupModeWorld).code = 0
        ∧ MEvent.uiOpened ∈ (pluginMain setupModeWorld).trace) := by
  refine ⟨?_, ?_, ?_⟩
  · have h := (claim_C5_workdir_precedence hostWinsWorld rfl rfl rfl (by decide) rfl rfl).1
      (by decide)
    rw [h]
    decide
  · exact (claim_C5_workdir_precedence cfgKeepWorld rfl rfl rfl (by decide) rfl rfl).2.1
      (by decide) (by decide)
  · exact (claim_C5_workdir_precedence setupModeWorld rfl rfl rfl (by decide) rfl rfl).2.2.2
      (by decide)

/-- C6: a discovered directory is persisted only when the previously loaded
configuration value was empty after stripping whitespace; a configured
value that is non-empty after stripping is never overwritten on any path
through main. -/
theorem claim_C6_config_preserved (w : MainWorld) :
    ((pluginMain w).savedCfg ≠ none → pyStrip w.cfgRepoPath = "")
    ∧ (pyStrip w.cfgRepoPath ≠ "" →
      (pluginMain w).savedCfg = none ∧ (pluginMain w).cfgAfter = w.cfgRepoPath) := by
  by_cases hps : pyStrip w.cfgRepoPath = ""
  · exact ⟨fun _ => hps, fun hc => absurd hps hc⟩
  · have hds : mainDoSave w = false := by
      simp [mainDoSave, hps]
    have key : (pluginMain w).savedCfg = none ∧ (pluginMain w).cfgAfter = w.cfgRepoPath := by
      cases h1 : w.wxOk <;> cases h2 : w.kipyOk <;> cases h3 : w.modulesOk <;>
        cases h4 : (_ensure_single_instance_or_notify w.inst).1 <;>
        cases h5 : w.ipcOk <;> cases h6 : w.boardPresent <;>
        simp [pluginMain, h1, h2, h3, h4, h5, h6, hds]
    exact ⟨fun hs => absurd key.1 hs, fun _ => key⟩

/-- C6 witness: a save happens only from an empty configured value, and a
non-empty configured value survives a run untouched. -/
theorem claim_C6_config_preserved_witness :
    pyStrip persistMainWorld.cfgRepoPath = ""
    ∧ (pluginMain keepMainWorld).savedCfg = none
    ∧ (pluginMain keepMainWorld).cfgAfter = "/keep" := by
  refine ⟨?_, ?_, ?_⟩
  · exact (claim_C6_config_preserved persistMainWorld).1 (by decide)
  · exact ((claim_C6_config_preserved keepMainWorld).2 (by decide)).1
  · exact ((claim_C6_config_preserved keepMainWorld).2 (by decide)).2

/-- C7: the exit code of main is always one of 0, 1 and 2: 2 for each of
the three failing import groups, 0 for the graceful second-instance yield,
1 for an IPC handshake failure or a missing board, and 0 for a normal
run to completion of the event loop. -/
theorem claim_C7_exit_codes (w : MainWorld) :
    ((pluginMain w).code = 0 ∨ (pluginMain w).code = 1 ∨ (pluginMain w).code = 2)
    ∧ (w.wxOk = false → (pluginMain w).code = 2)
    ∧ (w.wxOk = true → w.kipyOk = false → (pluginMain w).code = 2)
    ∧ (w.wxOk = true → w.kipyOk = true → w.modulesOk = false → (pluginMain w).code = 2)
    ∧ (w.wxOk = true → w.kipyOk = true → w.modulesOk = true →
        (_ensure_single_instance_or_notify w.inst).1 = false → (pluginMain w).code = 0)
    ∧ (w.wxOk = true → w.kipyOk = true → w.modulesOk = true →
        (_ensure_single_instance_or_notify w.inst).1 = true → w.ipcOk = false →
        (pluginMain w).code = 1)
    ∧ (w.wxOk = true → w.kipyOk = true → w.modulesOk = true →
        (_ensure_single_instance_or_notify w.inst).1 = true → w.ipcOk = true →
        w.boardPresent = false → (pluginMain w).code = 1)
    ∧ (w.wxOk = true → w.kipyOk = true → w.modulesOk = true →
        (_ensure_single_instance_or_notify w.inst).1 = true → w.ipcOk = true →
        w.boardPresent = true → (pluginMain w).code = 0) := by
  refine ⟨?_, ?_, ?_, ?_, ?_, ?_, ?_, ?_⟩
  · cases h1 : w.wxOk <;> cases h2 : w.kipyOk <;> cases h3 : w.modulesOk <;>
      cases h4 : (_ensure_single_instance_or_notify w.inst).1 <;>
      cases h5 : w.ipcOk <;> cases h6 : w.boardPresent <;>
      simp [pluginMain, h1, h2, h3, h4, h5, h6]
  · intro h1
    simp [pluginMain, h1]
  · intro h1 h2
    simp [pluginMain, h1, h2]
  · intro h1 h2 h3
    simp [pluginMain, h1, h2, h3]
  · intro h1 h2 h3 h4
    simp [pluginMain, h1, h2, h3, h4]
  · intro h1 h2 h3 h4 h5
    simp [pluginMain, h1, h2, h3, h4, h5]
  · intro h1 h2 h3 h4 h5 h6
    simp [pluginMain, h1, h2, h3, h4, h5, h6]
  · intro h1 h2 h3 h4 h5 h6
    simp [pluginMain, h1, h2, h3, h4, h5, h6]

/-- C7 witness: each exit-code branch evaluated on a concrete world. -/
theorem claim_C7_exit_codes_witness :
    (pluginMain { wxOk := false }).code = 2
    ∧ (pluginMain { kipyOk := false }).code = 2
    ∧ (pluginMain { modulesOk := false }).code = 2
    ∧ (pluginMain conflictExitWorld).code = 0
    ∧ (pluginMain { ipcOk := false }).code = 1
    ∧ (pluginMain { boardPresent := false }).code = 1
    ∧ (pluginMain ({} : MainWorld)).code = 0 :=
  ⟨(claim_C7_exit_codes { wxOk := false }).2.1 rfl,
   (claim_C7_exit_codes { kipyOk := false }).2.2.1 rfl rfl,
   (claim_C7_exit_codes { modulesOk := false }).2.2.2.1 rfl rfl rfl,
   (claim_C7_exit_codes conflictExitWorld).2.2.2.2.1 rfl rfl rfl (by decide),
   (claim_C7_exit_codes { ipcOk := false }).2.2.2.2.2.1 rfl rfl rfl (by decide) rfl,
   (claim_C7_exit_codes { boardPresent := false }).2.2.2.2.2.2.1 rfl rfl rfl (by decide) rfl rfl,
   (claim_C7_exit_codes ({} : MainWorld)).2.2.2.2.2.2.2 rfl rfl rfl (by decide) rfl rfl⟩
